import Mathlib

/-!
Verification development for the anbox session-manager core
(morphis/anbox-old).

This file gives a shallow embedding, in Lean 4, of the parts of the
code base the verified properties speak about:

* `src/anbox/cli.h` — `cli::SizeConstrainedString<max>` and its aliases
  `Name`, `Usage`, `Description`;
* `src/anbox/cli.cpp` — `cli::CommandWithFlagsAndAction::run`;
* `src/anbox/cmds/session_manager.cpp` — the `run` command: its two
  flags and the action lambda installed in the constructor
  (signal-trap registration, device-path precondition check, nvidia
  driver detection, collaborator construction, connector binding,
  asynchronous container start dispatch and the final
  start/trap-run/stop sequence);
* `src/anbox/input/manager.cpp` — `input::Manager::create_device`,
  `input::Manager::next_id` (a function-local static counter) and
  `input::Manager::build_device_path`.

Effectful C++ code is embedded as pure state-passing functions; the
observable actions of the session command are recorded as an explicit
event trace.  Thrown exceptions are modelled as `Except.error` values
(for `SizeConstrainedString`) or as an absent exit code (for the action
lambda, out of which exceptions of later startup steps propagate).
-/

namespace Anbox

/-- Exit codes from `<cstdlib>` used by the session action and `cli::run`. -/
def EXIT_SUCCESS : Nat := 0

/-- Failure exit code from `<cstdlib>`. -/
def EXIT_FAILURE : Nat := 1

namespace Cli

/-- Embedding of `cli::SizeConstrainedString<max>` (src/anbox/cli.h,
lines 43-57): a wrapper holding the stored `std::string`. -/
structure SizeConstrainedString (max : Nat) where
  s : String
  deriving DecidableEq, Repr

/-- Embedding of the constructor of `cli::SizeConstrainedString<max>`:
it stores the given string and throws `std::logic_error` ("Max size
exceeded <max>") when `s.size() > max`.  `std::string::size` counts
bytes, hence `String.utf8ByteSize`; the thrown exception is modelled as
an `Except.error` carrying the exception message. -/
def SizeConstrainedString.make (max : Nat) (s : String) :
    Except String (SizeConstrainedString max) :=
  if s.utf8ByteSize > max then
    Except.error ("Max size exceeded " ++ Nat.repr max)
  else
    Except.ok ⟨s⟩

/-- Embedding of `SizeConstrainedString::as_string`. -/
def SizeConstrainedString.as_string {max : Nat}
    (scs : SizeConstrainedString max) : String :=
  scs.s

/-- Embedding of `cli::Name` (`SizeConstrainedString<20>`). -/
abbrev Name := SizeConstrainedString 20

/-- Embedding of `cli::Usage` (`SizeConstrainedString<60>`). -/
abbrev Usage := SizeConstrainedString 60

/-- Embedding of `cli::Description` (`SizeConstrainedString<80>`). -/
abbrev Description := SizeConstrainedString 80

end Cli

/-- Renderer driver selection, `graphics::GLRendererServer::Config::Driver`.
The header is not under src/; the two values come from the `gles-driver`
flag description in session_manager.cpp: "Possible values are 'host'
or 'translator'". -/
inductive Driver
  | host
  | translator
  deriving DecidableEq, Repr

/-- Host path of the binder device checked by the session action. -/
def dev_binder : String := "/dev/binder"

/-- Host path of the ashmem device checked by the session action. -/
def dev_ashmem : String := "/dev/ashmem"

/-- Host path whose presence signals the proprietary nvidia driver. -/
def dev_nvidiactl : String := "/dev/nvidiactl"

/-- Observable steps of the session action lambda
(src/anbox/cmds/session_manager.cpp, lines 88-197), in source order. -/
inductive Ev
  | trapRegister
  | errorPrint
  | nvidiaInfo
  | ensurePaths
  | createRuntime
  | registerTerminateHandler
  | createCollaborators
  | bindConnectors
  | dispatchContainerStart (bind_mounts : List (String × String))
  | installBusService
  | rtStart
  | trapRun
  | rtStop
  deriving DecidableEq, Repr

/-- Host environment the session action runs against: `fs::exists` on
host paths, the `SystemConfiguration` directories, the audio server's
socket path (audio::Server is not under src/; per the spec its socket
is one of the session-scoped socket paths handed to the container), and
one success flag per startup step that can throw in the source
(`utils::ensure_paths`, `Runtime::create` together with the dispatcher,
`container::Client`, the collaborator constructors, the two
`PublishedSocketConnector` bindings, and the dbus installation). -/
structure Env where
  exists_path : String → Bool
  ensure_paths_ok : Bool
  runtime_ok : Bool
  client_ok : Bool
  collaborators_ok : Bool
  connectors_ok : Bool
  bus_ok : Bool
  socket_dir : String
  input_device_dir : String
  audio_socket_file : String

/-- Result of one run of the session action: the trace of observable
events, the returned exit code (`none` when an exception from a startup
step propagates out of the lambda), the final value of the
`gles_driver_` member, and the final value of
`container_configuration.bind_mounts` (`none` while not yet built). -/
structure ActionResult where
  events : List Ev
  exit : Option Nat
  gles : Driver
  container_config : Option (List (String × String))
  deriving DecidableEq, Repr

/-- Events of the action up to and including the nvidia detection: the
signal trap is registered first; when `/dev/nvidiactl` exists an INFO
line is printed while `gles_driver_` is forced to the host driver. -/
def startEvs (env : Env) : List Ev :=
  Ev.trapRegister ::
    (if env.exists_path dev_nvidiactl then [Ev.nvidiaInfo] else [])

/-- Embedding of `container_configuration.bind_mounts`
(session_manager.cpp lines 174-183): the declared bind-mount list, in
source order.  The qemu_pipe and anbox_bridge entries are the connector
socket files `utils::string_format("%s/qemu_pipe", socket_path)` and
`utils::string_format("%s/anbox_bridge", socket_path)`. -/
def bind_mounts (env : Env) : List (String × String) :=
  [ (env.socket_dir ++ "/qemu_pipe", "/dev/qemu_pipe"),
    (env.socket_dir ++ "/anbox_bridge", "/dev/anbox_bridge"),
    (env.audio_socket_file, "/dev/anbox_audio"),
    (env.input_device_dir, "/dev/input"),
    (dev_binder, dev_binder),
    (dev_ashmem, dev_ashmem),
    ("/dev/fuse", "/dev/fuse") ]

/-- Event trace of a run of the session action in which every startup
step succeeds, ending with `rt->start()`, `trap->run()`, `rt->stop()`. -/
def successTrace (env : Env) : List Ev :=
  startEvs env ++
    [ Ev.ensurePaths, Ev.createRuntime, Ev.registerTerminateHandler,
      Ev.createCollaborators, Ev.bindConnectors,
      Ev.dispatchContainerStart (bind_mounts env),
      Ev.installBusService, Ev.rtStart, Ev.trapRun, Ev.rtStop ]

/-- Embedding of the action lambda installed by
`SessionManager::SessionManager` (session_manager.cpp lines 88-197).
Straight-line C++ with early `return` and exceptions becomes a chain of
branches; each branch's event list is exactly the sequence of
statements executed before the return or the throwing step, and the
exit code is `some EXIT_FAILURE` for the explicit failure return,
`none` when a startup step throws, and `some EXIT_SUCCESS` at the final
return. -/
def sessionAction (env : Env) (g0 : Driver) : ActionResult :=
  if !env.exists_path dev_binder || !env.exists_path dev_ashmem then
    { events := [Ev.trapRegister, Ev.errorPrint],
      exit := some EXIT_FAILURE, gles := g0, container_config := none }
  else
    let gles := if env.exists_path dev_nvidiactl then Driver.host else g0
    if !env.ensure_paths_ok then
      { events := startEvs env, exit := none, gles := gles,
        container_config := none }
    else if !env.runtime_ok then
      { events := startEvs env ++ [Ev.ensurePaths],
        exit := none, gles := gles, container_config := none }
    else if !env.client_ok then
      { events := startEvs env ++ [Ev.ensurePaths, Ev.createRuntime],
        exit := none, gles := gles, container_config := none }
    else if !env.collaborators_ok then
      { events := startEvs env ++
          [Ev.ensurePaths, Ev.createRuntime, Ev.registerTerminateHandler],
        exit := none, gles := gles, container_config := none }
    else if !env.connectors_ok then
      { events := startEvs env ++
          [Ev.ensurePaths, Ev.createRuntime, Ev.registerTerminateHandler,
           Ev.createCollaborators],
        exit := none, gles := gles, container_config := none }
    else if !env.bus_ok then
      { events := startEvs env ++
          [Ev.ensurePaths, Ev.createRuntime, Ev.registerTerminateHandler,
           Ev.createCollaborators, Ev.bindConnectors,
           Ev.dispatchContainerStart (bind_mounts env)],
        exit := none, gles := gles,
        container_config := some (bind_mounts env) }
    else
      { events := successTrace env, exit := some EXIT_SUCCESS,
        gles := gles, container_config := some (bind_mounts env) }

/-- Embedding of the signal trap (core::posix is external; only the
stop/run-loop flag matters to the session command). -/
structure SignalTrap where
  running : Bool
  deriving DecidableEq, Repr

/-- Embedding of `trap->stop()`: unblocks `trap->run()`. -/
def SignalTrap.stop (t : SignalTrap) : SignalTrap :=
  { t with running := false }

/-- Observable effect of running the terminate handler on a trap: did it
log a warning, and the trap state it leaves behind. -/
structure TerminateHandlerEffect where
  warning_logged : Bool
  trap : SignalTrap
  deriving DecidableEq, Repr

/-- Embedding of the lambda passed to
`container.register_terminate_handler` (session_manager.cpp lines
117-120): it logs the warning "Lost connection to container manager,
terminating." and calls `trap->stop()`. -/
def terminate_handler (t : SignalTrap) : TerminateHandlerEffect :=
  { warning_logged := true, trap := t.stop }

/-- Modelled from the spec: `container::Client` (container/client.h is
not under src/) holds the single termination callback installed by
`register_terminate_handler(callback)`, which "installs the single
callback invoked when the supervisory connection to the container is
lost". -/
structure ContainerClient where
  terminate_handler_slot : Option (SignalTrap → TerminateHandlerEffect)

/-- Modelled from the spec: registering a terminate handler stores it as
the client's single callback, replacing any previous one. -/
def ContainerClient.register_terminate_handler (c : ContainerClient)
    (h : SignalTrap → TerminateHandlerEffect) : ContainerClient :=
  { c with terminate_handler_slot := some h }

/-- Observable steps of `cli::CommandWithFlagsAndAction::run`
(src/anbox/cli.cpp, lines 199-238): the notifier installed by
`add_to_desc_for_flags` applying a parsed value to a registered flag
(which fires during `po::notify`), the `mark_set` loop, printing help,
printing a program-options error, handing control to the installed
action, and the action's own events. -/
inductive RunEv
  | applyFlag (flag_name value : String)
  | markFlagsSet
  | printHelp
  | printError (msg : String)
  | invokeAction
  | actionEv (e : Ev)
  deriving DecidableEq, Repr

/-- Outcome of `boost::program_options` parsing of the context's
arguments (boost is external): either a `po::error`, or a successful
parse recording whether `--help` was given and the (flag name, raw
value) pairs present on the command line. -/
inductive ParseOutcome
  | parseError (msg : String)
  | parsed (help_requested : Bool) (values : List (String × String))
  deriving DecidableEq, Repr

/-- Embedding of `cli::CommandWithFlagsAndAction` (src/anbox/cli.h):
its name, the names of the registered flags (`flag` inserts into
`flags_`), and the installed action.  The action is represented by what
it contributes to a run: its event trace and its returned exit code
(`none` when it throws). -/
structure CommandWithFlagsAndAction where
  name : String
  flags : List String
  action : List (String × String) → List Ev × Option Nat

/-- Embedding of `cli::CommandWithFlagsAndAction::run` (cli.cpp lines
199-238).  On a `po::error` it prints the error and the help text and
returns `EXIT_FAILURE`.  On a successful parse, the notifiers apply
each registered flag's parsed value (unregistered options are collected
and passed along, not applied); then, if `--help` was requested, help
is printed and `EXIT_SUCCESS` returned without touching the action;
otherwise present flags are marked set and the installed action is
invoked, its exit code becoming the run's result. -/
def CommandWithFlagsAndAction.run (c : CommandWithFlagsAndAction)
    (parse : ParseOutcome) : List RunEv × Option Nat :=
  match parse with
  | ParseOutcome.parseError msg =>
      ([RunEv.printError msg, RunEv.printHelp], some EXIT_FAILURE)
  | ParseOutcome.parsed help_requested values =>
      let applied := values.filter (fun p => c.flags.contains p.1)
      let notifyEvs := applied.map (fun p => RunEv.applyFlag p.1 p.2)
      if help_requested then
        (notifyEvs ++ [RunEv.printHelp], some EXIT_SUCCESS)
      else
        let acted := c.action applied
        (notifyEvs ++ [RunEv.markFlagsSet, RunEv.invokeAction] ++
            acted.1.map RunEv.actionEv,
          acted.2)

/-- Names of the two flags registered by `SessionManager::SessionManager`
(session_manager.cpp lines 81-86). -/
def session_manager_flags : List String :=
  ["desktop_file_hint", "gles-driver"]

/-- Reading a `Driver` from a flag's raw string value, as `operator>>`
for `GLRendererServer::Config::Driver` does for the values named in the
flag description ('host' or 'translator'; the operator itself is not
under src/, its value set is modelled from the flag description). -/
def parseDriver (s : String) : Driver :=
  if s = "host" then Driver.host else Driver.translator

/-- Effect of the notifiers on the `gles_driver_` member: each parsed
occurrence of the `gles-driver` flag overwrites it. -/
def applyFlagValues (values : List (String × String)) (g0 : Driver) :
    Driver :=
  values.foldl (fun g p => if p.1 = "gles-driver" then parseDriver p.2 else g) g0

/-- Embedding of the `run` session command built by
`SessionManager::SessionManager`: name "run", the two registered flags,
and the action lambda run against host environment `env` with
`gles_driver_` currently holding `g0` (flag notification updates it
before the action body executes). -/
def SessionManager (env : Env) (g0 : Driver) : CommandWithFlagsAndAction :=
  { name := "run",
    flags := session_manager_flags,
    action := fun applied =>
      let r := sessionAction env (applyFlagValues applied g0)
      (r.events, r.exit) }

/-! ### input::Manager (src/anbox/input/manager.cpp) -/

/-- Process-wide mutable state read and written by
`input::Manager::next_id`: the function-local `static std::uint32_t
next_id` counter (manager.cpp line 43), which lives once per process,
not per `Manager` instance. -/
structure InputProcessState where
  next_id_counter : Nat
  deriving DecidableEq, Repr

/-- Number of values of `std::uint32_t`. -/
def UINT32_SIZE : Nat := 2 ^ 32

/-- Embedding of `input::Manager::next_id` (manager.cpp lines 42-45):
`return next_id++;` on the static counter — it returns the current
counter value and increments it with `std::uint32_t` wrap-around.  Its
input and output state is the process-wide static, not the `Manager`. -/
def Manager.next_id (p : InputProcessState) : Nat × InputProcessState :=
  (p.next_id_counter, ⟨(p.next_id_counter + 1) % UINT32_SIZE⟩)

/-- Embedding of `input::Manager::build_device_path` (manager.cpp lines
47-49): `boost::format("%1%/event%2%") % input_device_dir % id`, with
the id printed in decimal. -/
def build_device_path (input_device_dir : String) (id : Nat) : String :=
  input_device_dir ++ "/event" ++ Nat.repr id

/-- Embedding of `input::Manager` instance state: the `devices_` map
from id to the created device, a device being represented by its device
path (input::Device is an external collaborator). -/
structure Manager where
  devices_ : List (Nat × String)
  deriving DecidableEq, Repr

/-- Embedding of `input::Manager::create_device` (manager.cpp lines
34-40): take an id from `next_id`, build the device path, create the
device, insert it into this manager's `devices_`, and return it.
`input_device_dir` is the `SystemConfiguration` directory used by
`build_device_path`. -/
def Manager.create_device (input_device_dir : String)
    (p : InputProcessState) (m : Manager) :
    InputProcessState × Manager × String :=
  let r := Manager.next_id p
  let path := build_device_path input_device_dir r.1
  (r.2, ⟨m.devices_ ++ [(r.1, path)]⟩, path)

/-- Sequence of `create_device` calls: one call per manager in the list
(the same manager may occur repeatedly), threading the process-wide
static counter through, and recording the returned device paths in call
order. -/
def create_device_seq (input_device_dir : String)
    (p : InputProcessState) : List Manager → InputProcessState × List String
  | [] => (p, [])
  | m :: ms =>
      let r := Manager.create_device input_device_dir p m
      let rest := create_device_seq input_device_dir r.1 ms
      (rest.1, r.2.2 :: rest.2)

/-! ### Decimal representation: reference function for Nat.repr -/

/-- Reference decimal digit list (most significant digit first) used to
reason about `Nat.repr`. -/
def natChars (n : Nat) : List Char :=
  if h : n < 10 then [Nat.digitChar n]
  else natChars (n / 10) ++ [Nat.digitChar (n % 10)]
decreasing_by exact Nat.div_lt_self (by omega) (by omega)

/-- Numeric value of a decimal digit character. -/
def charVal (c : Char) : Nat := c.toNat - 48

/-- Value of a digit-character list read back as a decimal numeral. -/
def digitsVal (l : List Char) : Nat :=
  l.foldl (fun a c => a * 10 + charVal c) 0

/-! ### Sample environments for concrete witnesses -/

/-- Host environment in which every checked device path exists and every
startup step succeeds. -/
def sampleEnvOk : Env :=
  { exists_path := fun _ => true,
    ensure_paths_ok := true, runtime_ok := true, client_ok := true,
    collaborators_ok := true, connectors_ok := true, bus_ok := true,
    socket_dir := "/run/user/1000/anbox",
    input_device_dir := "/dev/anbox-input",
    audio_socket_file := "/run/user/1000/anbox/anbox_audio" }

/-- Host environment in which /dev/binder does not exist. -/
def sampleEnvNoBinder : Env :=
  { sampleEnvOk with exists_path := fun p => !(p == dev_binder) }

/-- Host environment in which only /dev/nvidiactl exists (in particular
/dev/binder is missing). -/
def sampleEnvNvidiaNoBinder : Env :=
  { sampleEnvOk with exists_path := fun p => p == dev_nvidiactl }

/-- Concrete `SystemConfiguration` input device directory for witnesses. -/
def sample_input_device_dir : String := "/dev/anbox-input"

/-! ### Helper lemmas: decimal representation -/

theorem charVal_digitChar : ∀ k, k < 10 → charVal (Nat.digitChar k) = k := by
  decide

theorem natChars_lt {n : Nat} (h : n < 10) : natChars n = [Nat.digitChar n] := by
  rw [natChars]
  simp [h]

theorem natChars_ge {n : Nat} (h : ¬ n < 10) :
    natChars n = natChars (n / 10) ++ [Nat.digitChar (n % 10)] := by
  rw [natChars]
  simp [h]

theorem foldl_natChars (n : Nat) : ∀ a : Nat,
    List.foldl (fun a c => a * 10 + charVal c) a (natChars n)
      = a * 10 ^ (natChars n).length + n := by
  induction n using Nat.strong_induction_on with
  | _ n ih =>
    intro a
    by_cases h : n < 10
    · rw [natChars_lt h]
      simp [charVal_digitChar n h]
    · rw [natChars_ge h, List.foldl_append,
        ih (n / 10) (Nat.div_lt_self (by omega) (by omega))]
      have hmod : charVal (Nat.digitChar (n % 10)) = n % 10 :=
        charVal_digitChar (n % 10) (Nat.mod_lt _ (by omega))
      simp only [List.foldl_cons, List.foldl_nil, List.length_append,
        List.length_cons, List.length_nil, hmod]
      calc (a * 10 ^ (natChars (n / 10)).length + n / 10) * 10 + n % 10
          = a * (10 ^ (natChars (n / 10)).length * 10)
              + (10 * (n / 10) + n % 10) := by ring
        _ = a * 10 ^ ((natChars (n / 10)).length + (0 + 1)) + n := by
              rw [Nat.div_add_mod, pow_succ]

theorem digitsVal_natChars (n : Nat) : digitsVal (natChars n) = n := by
  have h := foldl_natChars n 0
  simpa [digitsVal] using h

theorem natChars_injective : Function.Injective natChars := by
  intro m n h
  have hm := digitsVal_natChars m
  rw [h, digitsVal_natChars] at hm
  exact hm.symm

theorem toDigitsCore_eq_natChars :
    ∀ (fuel n : Nat) (ds : List Char), n < fuel →
      Nat.toDigitsCore 10 fuel n ds = natChars n ++ ds := by
  intro fuel
  induction fuel with
  | zero => intro n ds h; omega
  | succ f ih =>
    intro n ds h
    simp only [Nat.toDigitsCore]
    by_cases h10 : n / 10 = 0
    · have hlt : n < 10 := by omega
      rw [if_pos h10, natChars_lt hlt, Nat.mod_eq_of_lt hlt]
      simp
    · have hge : ¬ n < 10 := by omega
      rw [if_neg h10, ih (n / 10) _ (by omega), natChars_ge hge]
      simp

theorem repr_eq_natChars (n : Nat) : Nat.repr n = (natChars n).asString := by
  show (Nat.toDigits 10 n).asString = _
  rw [Nat.toDigits, toDigitsCore_eq_natChars (n + 1) n [] (Nat.lt_succ_self n)]
  simp

theorem natRepr_injective : Function.Injective Nat.repr := by
  intro m n h
  apply natChars_injective
  rw [repr_eq_natChars, repr_eq_natChars] at h
  exact congrArg String.data h

theorem build_device_path_injective (dir : String) :
    Function.Injective (build_device_path dir) := by
  intro a b h
  apply natRepr_injective
  unfold build_device_path at h
  have hd := congrArg String.data h
  simp only [String.data_append] at hd
  apply String.ext
  exact List.append_cancel_left hd

theorem create_device_seq_paths (dir : String) :
    ∀ (ms : List Manager) (p : InputProcessState),
      p.next_id_counter + ms.length ≤ UINT32_SIZE →
      (create_device_seq dir p ms).2
        = (List.range' p.next_id_counter ms.length).map (build_device_path dir) := by
  intro ms
  induction ms with
  | nil => intro p _; rfl
  | cons m ms ih =>
    intro p h
    simp only [create_device_seq, Manager.create_device, Manager.next_id,
      List.length_cons] at h ⊢
    by_cases hlt : p.next_id_counter + 1 < UINT32_SIZE
    · rw [List.range'_succ]
      simp only [List.map_cons, Nat.mod_eq_of_lt hlt]
      rw [ih ⟨p.next_id_counter + 1⟩ (by simpa using Nat.le_of_lt_succ (by omega))]
    · have hlen : ms.length = 0 := by omega
      have hnil : ms = [] := List.length_eq_zero.mp hlen
      subst hnil
      simp [List.range'_succ, create_device_seq]

/-! ### Shared lemmas about the session action -/

theorem sessionAction_head (env : Env) (g : Driver) :
    (sessionAction env g).events.head? = some Ev.trapRegister := by
  unfold sessionAction
  repeat' split
  all_goals simp [startEvs, successTrace]

theorem mem_startEvs_iff (env : Env) (e : Ev) :
    e ∈ startEvs env ↔
      e = Ev.trapRegister
      ∨ (env.exists_path dev_nvidiactl = true ∧ e = Ev.nvidiaInfo) := by
  unfold startEvs
  split <;> simp_all

theorem count_startEvs_dispatch (env : Env) (m : List (String × String)) :
    (startEvs env).count (Ev.dispatchContainerStart m) = 0 := by
  unfold startEvs
  split <;> rfl

theorem count_startEvs_register (env : Env) :
    (startEvs env).count Ev.registerTerminateHandler = 0 := by
  unfold startEvs
  split <;> rfl

/-! ### Claim theorems -/

/-- C1: if either host device path /dev/binder or /dev/ashmem does not
exist when the session command's action runs, the action prints a
diagnostic and returns the failure exit code, and no container start is
ever dispatched (no guest process launch is requested). -/
theorem C1_missing_device_fails (env : Env) (g : Driver)
    (h : env.exists_path dev_binder = false ∨ env.exists_path dev_ashmem = false) :
    Ev.errorPrint ∈ (sessionAction env g).events
    ∧ (sessionAction env g).exit = some EXIT_FAILURE
    ∧ ∀ mounts, Ev.dispatchContainerStart mounts ∉ (sessionAction env g).events := by
  have hcond : (!env.exists_path dev_binder || !env.exists_path dev_ashmem) = true := by
    rcases h with h | h <;> simp [h]
  simp [sessionAction, hcond]

/-- C1 witness: a host without /dev/binder makes the action print the
diagnostic, return failure, and never dispatch a container start. -/
theorem C1_missing_device_fails_witness :
    Ev.errorPrint ∈ (sessionAction sampleEnvNoBinder Driver.host).events
    ∧ (sessionAction sampleEnvNoBinder Driver.host).exit = some EXIT_FAILURE
    ∧ ∀ mounts, Ev.dispatchContainerStart mounts ∉
        (sessionAction sampleEnvNoBinder Driver.host).events :=
  C1_missing_device_fails sampleEnvNoBinder Driver.host (Or.inl (by decide))

/-- C2: in every run of the session action, the signal trap is
registered first, strictly before the device-path precondition check
(when that check fails the trace is exactly trap registration followed
by the diagnostic, with a failure exit code); every run's trace is
either that failure trace or a prefix of the full startup trace (so any
step's failure aborts all remaining startup steps); and only the
complete trace returns the success exit code. -/
theorem C2_trap_first_failures_abort (env : Env) (g : Driver) :
    (sessionAction env g).events.head? = some Ev.trapRegister
    ∧ ((!env.exists_path dev_binder || !env.exists_path dev_ashmem) = true →
        (sessionAction env g).events = [Ev.trapRegister, Ev.errorPrint]
        ∧ (sessionAction env g).exit = some EXIT_FAILURE)
    ∧ ((sessionAction env g).events = [Ev.trapRegister, Ev.errorPrint]
        ∨ ∃ t, successTrace env = (sessionAction env g).events ++ t)
    ∧ ((sessionAction env g).exit = some EXIT_SUCCESS →
        (sessionAction env g).events = successTrace env) := by
  refine ⟨sessionAction_head env g, ?_, ?_, ?_⟩
  · intro h
    constructor <;> simp [sessionAction, h]
  · unfold sessionAction
    repeat' split
    all_goals first
      | exact Or.inl rfl
      | (refine Or.inr ⟨[], ?_⟩; simp [successTrace]; done)
      | (refine Or.inr ⟨[Ev.ensurePaths, Ev.createRuntime, Ev.registerTerminateHandler,
          Ev.createCollaborators, Ev.bindConnectors,
          Ev.dispatchContainerStart (bind_mounts env), Ev.installBusService,
          Ev.rtStart, Ev.trapRun, Ev.rtStop], ?_⟩; simp [successTrace]; done)
      | (refine Or.inr ⟨[Ev.createRuntime, Ev.registerTerminateHandler,
          Ev.createCollaborators, Ev.bindConnectors,
          Ev.dispatchContainerStart (bind_mounts env), Ev.installBusService,
          Ev.rtStart, Ev.trapRun, Ev.rtStop], ?_⟩; simp [successTrace]; done)
      | (refine Or.inr ⟨[Ev.registerTerminateHandler, Ev.createCollaborators,
          Ev.bindConnectors, Ev.dispatchContainerStart (bind_mounts env),
          Ev.installBusService, Ev.rtStart, Ev.trapRun, Ev.rtStop], ?_⟩;
          simp [successTrace]; done)
      | (refine Or.inr ⟨[Ev.createCollaborators, Ev.bindConnectors,
          Ev.dispatchContainerStart (bind_mounts env), Ev.installBusService,
          Ev.rtStart, Ev.trapRun, Ev.rtStop], ?_⟩; simp [successTrace]; done)
      | (refine Or.inr ⟨[Ev.bindConnectors, Ev.dispatchContainerStart (bind_mounts env),
          Ev.installBusService, Ev.rtStart, Ev.trapRun, Ev.rtStop], ?_⟩;
          simp [successTrace]; done)
      | (refine Or.inr ⟨[Ev.installBusService, Ev.rtStart, Ev.trapRun, Ev.rtStop], ?_⟩;
          simp [successTrace]; done)
  · unfold sessionAction
    repeat' split
    all_goals intro hex
    all_goals first
      | rfl
      | simp [EXIT_SUCCESS, EXIT_FAILURE] at hex

/-- C2 witness: on a host without /dev/binder the trace is exactly trap
registration then the diagnostic; on a fully working host a successful
exit implies the complete startup trace. -/
theorem C2_trap_first_failures_abort_witness :
    (sessionAction sampleEnvNoBinder Driver.host).events
        = [Ev.trapRegister, Ev.errorPrint]
    ∧ (sessionAction sampleEnvOk Driver.host).events = successTrace sampleEnvOk :=
  ⟨((C2_trap_first_failures_abort sampleEnvNoBinder Driver.host).2.1 (by decide)).1,
   (C2_trap_first_failures_abort sampleEnvOk Driver.host).2.2.2 (by decide)⟩

/-- C3: every bind-mount list handed to a dispatched container start is
exactly the declared seven entries, in declared order — qemu_pipe
socket, anbox_bridge socket, audio socket, input device directory,
/dev/binder, /dev/ashmem, /dev/fuse — the dispatch happens exactly
once, and the configuration still held when the action ends is the very
list that was dispatched (it is not mutated after the start request). -/
theorem C3_bind_mounts_exact (env : Env) (g : Driver)
    (m : List (String × String))
    (h : Ev.dispatchContainerStart m ∈ (sessionAction env g).events) :
    m = [ (env.socket_dir ++ "/qemu_pipe", "/dev/qemu_pipe"),
          (env.socket_dir ++ "/anbox_bridge", "/dev/anbox_bridge"),
          (env.audio_socket_file, "/dev/anbox_audio"),
          (env.input_device_dir, "/dev/input"),
          ("/dev/binder", "/dev/binder"),
          ("/dev/ashmem", "/dev/ashmem"),
          ("/dev/fuse", "/dev/fuse") ]
    ∧ (sessionAction env g).container_config = some m
    ∧ (sessionAction env g).events.count (Ev.dispatchContainerStart m) = 1 := by
  revert h
  unfold sessionAction
  repeat' split
  all_goals intro h
  all_goals simp [List.mem_append, mem_startEvs_iff, successTrace] at h
  all_goals subst h
  all_goals refine ⟨rfl, rfl, ?_⟩
  all_goals simp [successTrace, List.count_append, List.count_cons,
    count_startEvs_dispatch]

/-- C3 witness: on a fully working host the dispatched configuration is
the declared list, it is dispatched once, and it is still the final
configuration. -/
theorem C3_bind_mounts_exact_witness :
    (sessionAction sampleEnvOk Driver.host).container_config
        = some (bind_mounts sampleEnvOk)
    ∧ (sessionAction sampleEnvOk Driver.host).events.count
        (Ev.dispatchContainerStart (bind_mounts sampleEnvOk)) = 1 :=
  ⟨(C3_bind_mounts_exact sampleEnvOk Driver.host (bind_mounts sampleEnvOk)
      (by decide)).2.1,
   (C3_bind_mounts_exact sampleEnvOk Driver.host (bind_mounts sampleEnvOk)
      (by decide)).2.2⟩

/-- C4 counterexample: the claim says that whenever /dev/nvidiactl
exists the action overwrites the driver configuration with the host
driver.  On a host where /dev/nvidiactl exists but /dev/binder is
missing, the action returns at the device-path check before the nvidia
detection, leaving the flag value (translator) unchanged, so no
overwrite to the host driver happens. -/
theorem C4_counterexample :
    sampleEnvNvidiaNoBinder.exists_path dev_nvidiactl = true
    ∧ (sessionAction sampleEnvNvidiaNoBinder Driver.translator).gles
        = Driver.translator
    ∧ Driver.translator ≠ Driver.host := by
  decide

/-- C4 (amended): in runs that pass the binder/ashmem device check, the
driver configuration is overwritten with the host driver exactly when
/dev/nvidiactl exists, regardless of the flag value; in all other runs
(including those failing the device check, which return before the
detection) the flag value is left unchanged. -/
theorem C4_amended_nvidia_override (env : Env) (g : Driver) :
    (sessionAction env g).gles =
      if env.exists_path dev_binder && env.exists_path dev_ashmem
          && env.exists_path dev_nvidiactl
      then Driver.host else g := by
  cases hb : env.exists_path dev_binder <;>
    cases ha : env.exists_path dev_ashmem <;>
      cases hn : env.exists_path dev_nvidiactl
  all_goals unfold sessionAction
  all_goals simp [hb, ha, hn]
  all_goals ((repeat' split) <;> rfl)

/-- C5: every run that reaches the signal-wait step (the trap's run
loop) stops the Runtime right after the run loop returns — the trace
ends with runtime start, trap run, runtime stop — and returns the
success exit code; every run failing the device-path precondition
returns the failure exit code. -/
theorem C5_signal_wait_success (env : Env) (g : Driver) :
    (Ev.trapRun ∈ (sessionAction env g).events →
      (sessionAction env g).exit = some EXIT_SUCCESS
      ∧ ∃ pre, (sessionAction env g).events
          = pre ++ [Ev.rtStart, Ev.trapRun, Ev.rtStop])
    ∧ ((!env.exists_path dev_binder || !env.exists_path dev_ashmem) = true →
        (sessionAction env g).exit = some EXIT_FAILURE) := by
  constructor
  · unfold sessionAction
    repeat' split
    all_goals intro h
    all_goals simp [List.mem_append, mem_startEvs_iff, successTrace] at h
    all_goals refine ⟨rfl, startEvs env ++
      [Ev.ensurePaths, Ev.createRuntime, Ev.registerTerminateHandler,
       Ev.createCollaborators, Ev.bindConnectors,
       Ev.dispatchContainerStart (bind_mounts env), Ev.installBusService], ?_⟩
    all_goals simp [successTrace]
  · intro h
    simp [sessionAction, h]

/-- C5 witness: a fully working host exits with success, and a host
missing /dev/binder exits with failure. -/
theorem C5_signal_wait_success_witness :
    (sessionAction sampleEnvOk Driver.host).exit = some EXIT_SUCCESS
    ∧ (sessionAction sampleEnvNoBinder Driver.host).exit = some EXIT_FAILURE :=
  ⟨((C5_signal_wait_success sampleEnvOk Driver.host).1 (by decide)).1,
   (C5_signal_wait_success sampleEnvNoBinder Driver.host).2 (by decide)⟩

/-- C6: the handler registered with the Container Client for loss of the
supervisory connection logs a warning and stops the signal trap's run
loop (initiating shutdown rather than crashing or continuing);
registering it makes it the client's single termination callback, and
every run of the session action performs at most one registration. -/
theorem C6_terminate_handler_shutdown (t : SignalTrap) (c : ContainerClient)
    (env : Env) (g : Driver) :
    (terminate_handler t).warning_logged = true
    ∧ (terminate_handler t).trap.running = false
    ∧ (ContainerClient.register_terminate_handler c terminate_handler).terminate_handler_slot
        = some terminate_handler
    ∧ (sessionAction env g).events.count Ev.registerTerminateHandler ≤ 1 := by
  refine ⟨rfl, rfl, rfl, ?_⟩
  unfold sessionAction
  repeat' split
  all_goals simp [successTrace, List.count_append, List.count_cons,
    count_startEvs_register]

/-- C7 counterexample: the claim says the id counter is component state
of the allocating Manager, never a hidden process-wide static.  In the
code it is a function-local static: two `create_device` calls with the
identical `Manager` value (an empty `devices_` map) return different
ids — and hence different device paths — solely because a prior call
went through a different Manager instance and advanced the shared
process-wide counter. -/
theorem C7_counterexample :
    (Manager.create_device sample_input_device_dir ⟨0⟩ ⟨[]⟩).2.2
        = "/dev/anbox-input/event0"
    ∧ (Manager.create_device sample_input_device_dir
        (Manager.create_device sample_input_device_dir ⟨0⟩ ⟨[]⟩).1 ⟨[]⟩).2.2
        = "/dev/anbox-input/event1"
    ∧ ("/dev/anbox-input/event0" : String) ≠ "/dev/anbox-input/event1" := by
  decide

/-- C7 (amended): sequential id generation uses a single hidden
process-wide static counter shared by all Manager instances; for every
sequence of `create_device` calls (through any managers) in which the
counter does not wrap a `std::uint32_t`, the ids returned by `next_id`
are the consecutive counter values, pairwise distinct, so each created
device gets a distinct device path `<input_device_dir>/event<id>`. -/
theorem C7_amended_shared_counter_distinct_paths (dir : String)
    (p : InputProcessState) (ms : List Manager)
    (h : p.next_id_counter + ms.length ≤ UINT32_SIZE) :
    (create_device_seq dir p ms).2
      = (List.range' p.next_id_counter ms.length).map (build_device_path dir)
    ∧ (create_device_seq dir p ms).2.Nodup := by
  refine ⟨create_device_seq_paths dir ms p h, ?_⟩
  rw [create_device_seq_paths dir ms p h]
  exact List.Nodup.map (build_device_path_injective dir)
    (List.nodup_range' _ _)

/-- C7 witness: three `create_device` calls through three distinct
fresh Manager instances yield pairwise distinct device paths. -/
theorem C7_amended_shared_counter_distinct_paths_witness :
    (create_device_seq sample_input_device_dir ⟨0⟩ [⟨[]⟩, ⟨[]⟩, ⟨[]⟩]).2
        = ["/dev/anbox-input/event0", "/dev/anbox-input/event1",
           "/dev/anbox-input/event2"]
    ∧ (create_device_seq sample_input_device_dir ⟨0⟩ [⟨[]⟩, ⟨[]⟩, ⟨[]⟩]).2.Nodup :=
  ⟨by decide,
   (C7_amended_shared_counter_distinct_paths sample_input_device_dir ⟨0⟩
     [⟨[]⟩, ⟨[]⟩, ⟨[]⟩] (by decide)).2⟩

/-- C8: the session command registers exactly the two configuration
flags desktop_file_hint and gles-driver, and in every run with a
successful parse and no help request, all flag applications (the parse
notifiers updating the command state) happen strictly before the
action runs, whose first step is the signal-trap registration. -/
theorem C8_two_flags_applied_before_action (env : Env) (g : Driver)
    (values : List (String × String)) :
    (SessionManager env g).flags = ["desktop_file_hint", "gles-driver"]
    ∧ (SessionManager env g).flags.length = 2
    ∧ ((SessionManager env g).run (ParseOutcome.parsed false values)).1
        = (values.filter (fun p => (SessionManager env g).flags.contains p.1)).map
            (fun p => RunEv.applyFlag p.1 p.2)
          ++ [RunEv.markFlagsSet, RunEv.invokeAction]
          ++ ((sessionAction env
                (applyFlagValues
                  (values.filter
                    (fun p => (SessionManager env g).flags.contains p.1)) g)).events.map
              RunEv.actionEv)
    ∧ (sessionAction env
        (applyFlagValues
          (values.filter
            (fun p => (SessionManager env g).flags.contains p.1)) g)).events.head?
        = some Ev.trapRegister :=
  ⟨rfl, rfl, rfl, sessionAction_head env _⟩

/-- C9: for every CommandWithFlagsAndAction, a parse with --help prints
the help text and returns the success exit code without invoking the
installed action, and a program-options parse error prints the error
and the help text and returns the failure exit code without invoking
the action. -/
theorem C9_help_and_error_skip_action (c : CommandWithFlagsAndAction)
    (msg : String) (values : List (String × String)) :
    c.run (ParseOutcome.parseError msg)
        = ([RunEv.printError msg, RunEv.printHelp], some EXIT_FAILURE)
    ∧ RunEv.invokeAction ∉ (c.run (ParseOutcome.parseError msg)).1
    ∧ c.run (ParseOutcome.parsed true values)
        = ((values.filter (fun p => c.flags.contains p.1)).map
             (fun p => RunEv.applyFlag p.1 p.2) ++ [RunEv.printHelp],
           some EXIT_SUCCESS)
    ∧ RunEv.invokeAction ∉ (c.run (ParseOutcome.parsed true values)).1 := by
  refine ⟨rfl, by simp [CommandWithFlagsAndAction.run], rfl, ?_⟩
  simp [CommandWithFlagsAndAction.run]

/-- C10: constructing a SizeConstrainedString with bound max (hence a
Name with max 20, a Usage with max 60 or a Description with max 80)
throws exactly when the input string's size exceeds max; otherwise the
stored string is the input itself, so as_string returns it unchanged. -/
theorem C10_size_constrained_string (max : Nat) (s : String) :
    ((∃ e, Cli.SizeConstrainedString.make max s = Except.error e)
        ↔ s.utf8ByteSize > max)
    ∧ ∀ t : Cli.SizeConstrainedString max,
        Cli.SizeConstrainedString.make max s = Except.ok t →
          t.as_string = s := by
  unfold Cli.SizeConstrainedString.make
  by_cases h : s.utf8ByteSize > max
  · rw [if_pos h]
    refine ⟨⟨fun _ => h, fun _ => ⟨_, rfl⟩⟩, ?_⟩
    intro t ht
    exact absurd ht (by simp)
  · rw [if_neg h]
    refine ⟨⟨?_, fun hgt => absurd hgt h⟩, ?_⟩
    · rintro ⟨e, he⟩
      exact absurd he (by simp)
    · intro t ht
      simp only [Except.ok.injEq] at ht
      subst ht
      rfl

/-- C10 witness: a three-byte string exceeds the bound 2 and is
rejected, while with the Name bound 20 it is accepted and stored
unchanged. -/
theorem C10_size_constrained_string_witness :
    (∃ e, Cli.SizeConstrainedString.make 2 "run" = Except.error e)
    ∧ Cli.SizeConstrainedString.as_string
        (⟨"run"⟩ : Cli.SizeConstrainedString 20) = "run" :=
  ⟨(C10_size_constrained_string 2 "run").1.mpr (by decide),
   (C10_size_constrained_string 20 "run").2 ⟨"run"⟩ (by rfl)⟩

end Anbox
